import Mathlib

/-!
Shallow embedding of the mod-provider subsystem of hytale_server_manager:
the unified data model (`types.ts`), the two provider adapters
(`ModtaleProvider`, `CurseForgeProvider`), the `ModProviderRegistry`
and the `ModProviderService`.

Upstream HTTP payloads are dynamic JSON values; they are modelled by the
`JVal` type below together with the JavaScript coercions the adapters use
(truthiness, `||`, `String(...)`, `Number(...)`, property access).
JavaScript numbers are modelled as `JsNum` (an integer or NaN); fallible
code returns `Except String`.
-/

/-- A JavaScript runtime value as the adapters see upstream JSON
(plus `jundefined` for `undefined`, the result of a missing property). -/
inductive JVal where
  | jundefined : JVal
  | jnull : JVal
  | jbool : Bool → JVal
  | jnum : Int → JVal
  | jstr : String → JVal
  | jarr : List JVal → JVal
  | jobj : List (String × JVal) → JVal
deriving Repr

/-- A JavaScript number: an integer or NaN (floats that matter to this
code are integral: sizes, counts, page indexes). -/
inductive JsNum where
  | num : Int → JsNum
  | nan : JsNum
deriving Repr, DecidableEq

/-- JavaScript `+` on numbers: NaN propagates. -/
def JsNum.add : JsNum → JsNum → JsNum
  | .num a, .num b => .num (a + b)
  | _, _ => .nan

/-- JavaScript `<` on numbers: any comparison with NaN is false. -/
def JsNum.ltb : JsNum → JsNum → Bool
  | .num a, .num b => decide (a < b)
  | _, _ => false

/-- JavaScript truthiness of a value. -/
def truthy : JVal → Bool
  | .jundefined => false
  | .jnull => false
  | .jbool b => b
  | .jnum n => n != 0
  | .jstr s => s != ""
  | .jarr _ => true
  | .jobj _ => true

/-- JavaScript `a || b`. -/
def jsOr (a b : JVal) : JVal := if truthy a then a else b

/-- Property access `v[k]`: a missing key (or a non-object) yields
`undefined`. -/
def jget : JVal → String → JVal
  | .jobj fs, k =>
    match fs.find? (fun p => p.1 == k) with
    | some p => p.2
    | none => .jundefined
  | _, _ => .jundefined

/-- The JavaScript `k in v` check (key presence on an object). -/
def hasKey : JVal → String → Bool
  | .jobj fs, k => (fs.find? (fun p => p.1 == k)).isSome
  | _, _ => false

/-- `Array.isArray`. -/
def isArray : JVal → Bool
  | .jarr _ => true
  | _ => false

mutual

/-- JavaScript `String(v)` coercion. -/
def jsToString : JVal → String
  | .jundefined => "undefined"
  | .jnull => "null"
  | .jbool b => if b then "true" else "false"
  | .jnum n => toString n
  | .jstr s => s
  | .jarr xs => jsToStringList xs
  | .jobj _ => "[object Object]"

/-- Array-to-string: elements joined by commas (as `Array.prototype.toString`). -/
def jsToStringList : List JVal → String
  | [] => ""
  | [v] => jsToString v
  | v :: rest => jsToString v ++ "," ++ jsToStringList rest

end

/-- JavaScript `Number(v)` coercion (integral fragment; non-numeric
strings and objects give NaN). -/
def jsToNum : JVal → JsNum
  | .jundefined => .nan
  | .jnull => .num 0
  | .jbool b => .num (if b then 1 else 0)
  | .jnum n => .num n
  | .jstr s =>
    if s.trim = "" then .num 0
    else
      match s.trim.toInt? with
      | some n => .num n
      | none => .nan
  | .jarr [] => .num 0
  | .jarr [v] => jsToNum v
  | .jarr (_ :: _ :: _) => .nan
  | .jobj _ => .nan

/-- JavaScript `v?.[0]` (first element of an optional array-ish value). -/
def optFirst : JVal → JVal
  | .jarr xs => xs.headD .jundefined
  | .jstr s => if s = "" then .jundefined else .jstr (String.singleton s.front)
  | .jobj fs =>
    match fs.find? (fun p => p.1 == "0") with
    | some p => p.2
    | none => .jundefined
  | _ => .jundefined

-- ==========================================
-- Unified data model (types.ts)
-- ==========================================

/-- `UnifiedAuthor` of types.ts. -/
structure UnifiedAuthor where
  id : String
  username : String
  displayName : Option String
  avatarUrl : Option String
deriving Repr, DecidableEq

/-- `UnifiedVersion` of types.ts. -/
structure UnifiedVersion where
  id : String
  version : String
  changelog : Option String
  downloads : JsNum
  gameVersion : String
  releaseDate : String
  fileSize : JsNum
  fileName : String
deriving Repr, DecidableEq

/-- `UnifiedCategory` of types.ts. -/
structure UnifiedCategory where
  id : String
  name : String
  slug : String
  iconUrl : Option String
deriving Repr, DecidableEq

/-- A tag record `{id, name, slug}` of types.ts. -/
structure UnifiedTag where
  id : String
  name : String
  slug : String
deriving Repr, DecidableEq

/-- `UnifiedDependency` of types.ts; `type` is one of
required/optional/incompatible/embedded (kept as a string). -/
structure UnifiedDependency where
  projectId : String
  projectName : String
  versionId : Option String
  required : Bool
  depType : String
deriving Repr, DecidableEq

/-- `UnifiedProject` of types.ts. The `classification` field is kept as a
runtime `JVal`: the TypeScript annotation `UnifiedClassification` is a
compile-time cast with no runtime validation, so any upstream value can
inhabit it at run time. -/
structure UnifiedProject where
  id : String
  slug : String
  providerId : String
  title : String
  description : String
  shortDescription : Option String
  classification : JVal
  author : UnifiedAuthor
  categories : List UnifiedCategory
  tags : Option (List UnifiedTag)
  downloads : JsNum
  rating : Option JsNum
  ratingCount : Option JsNum
  followers : Option JsNum
  iconUrl : Option String
  bannerUrl : Option String
  galleryImages : Option (List String)
  versions : List UnifiedVersion
  latestVersion : Option UnifiedVersion
  gameVersions : List String
  createdAt : String
  updatedAt : String
  featured : Option Bool
  raw : Option JVal
deriving Repr

/-- `UnifiedSearchParams` of types.ts. -/
structure UnifiedSearchParams where
  query : Option String := none
  classification : Option String := none
  categories : Option (List String) := none
  tags : Option (List String) := none
  gameVersion : Option String := none
  page : Option Int := none
  pageSize : Option Int := none
  sortBy : Option String := none
  sortOrder : Option String := none
deriving Repr, DecidableEq

/-- `UnifiedSearchResponse` of types.ts. Numeric fields are `JsNum`
because adapters fill them from coerced upstream data. -/
structure UnifiedSearchResponse where
  projects : List UnifiedProject
  total : JsNum
  page : JsNum
  pageSize : JsNum
  hasMore : Bool
  providerId : String
deriving Repr

/-- `MultiProviderSearchResponse` of types.ts. -/
structure MultiProviderSearchResponse where
  results : List UnifiedSearchResponse
  totalAcrossProviders : JsNum
deriving Repr

/-- `UnifiedModMetadata` of types.ts. -/
structure UnifiedModMetadata where
  providerId : String
  projectId : String
  projectTitle : String
  projectIconUrl : Option String
  versionId : String
  versionName : String
  classification : JVal
  fileSize : JsNum
deriving Repr

/-- JavaScript `opt ?? d` for an optional integer parameter. -/
def coalesce (o : Option Int) (d : Int) : Int := o.getD d

/-- JavaScript `opt || d` for an optional integer parameter
(0 is falsy, so it also falls through to the default). -/
def orInt (o : Option Int) (d : Int) : Int :=
  match o with
  | some n => if n = 0 then d else n
  | none => d

/-- An optional integer parameter as the runtime `JVal` it is in JS. -/
def optIntJ : Option Int → JVal
  | some n => .jnum n
  | none => .jundefined

/-- JavaScript truthiness of an optional string (`undefined` and `""`
are falsy). -/
def optStrTruthy : Option String → Bool
  | some s => s != ""
  | none => false

/-- JavaScript `opt || d` for an optional string. -/
def orStr (o : Option String) (d : String) : String :=
  match o with
  | some s => if s = "" then d else s
  | none => d

/-- JavaScript strict equality `v === s` against a string literal. -/
def jstrEq : JVal → String → Bool
  | .jstr s, t => s == t
  | _, _ => false

/-- Strict equality `v === false`. -/
def isFalseLit : JVal → Bool
  | .jbool false => true
  | _ => false

/-- `typeof v === 'object'` (null and arrays included). -/
def typeofObject : JVal → Bool
  | .jnull => true
  | .jarr _ => true
  | .jobj _ => true
  | _ => false

/-- View a value as a JS array. -/
def asArr : JVal → Option (List JVal)
  | .jarr xs => some xs
  | _ => none

/-- A raw JS value sitting in a number position without coercion: a
number is itself; any other value behaves as a non-number that poisons
arithmetic and comparisons (as NaN/undefined do). -/
def jvalRaw : JVal → JsNum
  | .jnum n => .num n
  | _ => .nan

/-- The unified classification taxonomy `UnifiedClassification` of
types.ts, as the closed enumeration the TypeScript union declares. -/
inductive UnifiedClassification where
  | PLUGIN
  | DATA
  | ART
  | SAVE
  | MODPACK
deriving Repr, DecidableEq

/-- The string a classification literal denotes. -/
def UnifiedClassification.toStr : UnifiedClassification → String
  | .PLUGIN => "PLUGIN"
  | .DATA => "DATA"
  | .ART => "ART"
  | .SAVE => "SAVE"
  | .MODPACK => "MODPACK"

/-- A classification literal as the runtime string value it is. -/
def UnifiedClassification.toJVal (c : UnifiedClassification) : JVal :=
  .jstr c.toStr

-- ==========================================
-- ModtaleProvider (adapter for the Modtale API)
-- ==========================================

namespace ModtaleProvider

/-- `ModtaleProvider.transformVersion`: Modtale version payload to
`UnifiedVersion`, with the source's per-field fallback chains. -/
def transformVersion (version : JVal) : UnifiedVersion :=
  { id := jsToString (jsOr (jget version "id") (.jstr ""))
    version := jsToString (jsOr (jget version "version") (jsOr (jget version "versionNumber") (.jstr "")))
    changelog :=
      if truthy (jget version "changelog") then some (jsToString (jget version "changelog")) else none
    downloads := jsToNum (jsOr (jget version "downloadCount") (jsOr (jget version "downloads") (.jnum 0)))
    gameVersion := jsToString (jsOr (jget version "gameVersion")
      (jsOr (optFirst (jget version "gameVersions")) (.jstr "")))
    releaseDate := jsToString (jsOr (jget version "createdAt") (jsOr (jget version "createdDate")
      (jsOr (jget version "releaseDate") (jsOr (jget version "publishedAt") (.jstr "")))))
    fileSize := jsToNum (jsOr (jget version "fileSize") (jsOr (jget version "size") (.jnum 0)))
    fileName := jsToString (jsOr (jget version "fileName") (jsOr (jget version "file") (.jstr ""))) }

/-- `ModtaleProvider.transformAuthor`. -/
def transformAuthor (author : JVal) : UnifiedAuthor :=
  match author with
  | .jstr s => { id := s, username := s, displayName := some s, avatarUrl := none }
  | a =>
    { id := jsToString (jsOr (jget a "id") (jsOr (jget a "username") (.jstr "")))
      username := jsToString (jsOr (jget a "username") (jsOr (jget a "name") (.jstr "")))
      displayName := some (jsToString (jsOr (jget a "displayName")
        (jsOr (jget a "name") (jsOr (jget a "username") (.jstr "")))))
      avatarUrl := if truthy (jget a "avatarUrl") then some (jsToString (jget a "avatarUrl")) else none }

/-- The tag mapping inside `ModtaleProvider.transformProject`. -/
def transformTag (tag : JVal) : UnifiedTag :=
  match tag with
  | .jstr s => { id := s, name := s, slug := s }
  | t =>
    { id := jsToString (jsOr (jget t "id") (jget t "name"))
      name := jsToString (jsOr (jget t "name") (jsOr (jget t "id") t))
      slug := jsToString (jsOr (jget t "slug") (jsOr (jget t "name") (jsOr (jget t "id") t))) }

/-- `ModtaleProvider.transformProject`: Modtale project payload to
`UnifiedProject`. `classification` is the raw `(project.classification
as UnifiedClassification) || 'PLUGIN'` expression: the cast performs no
runtime validation, so a truthy upstream value passes through as-is. -/
def transformProject (project : JVal) : UnifiedProject :=
  let versions :=
    match jget project "versions" with
    | .jarr vs => vs.map transformVersion
    | _ => []
  let tags :=
    match jget project "tags" with
    | .jarr ts => ts.map transformTag
    | _ => []
  { id := jsToString (jsOr (jget project "id") (.jstr ""))
    slug := jsToString (jsOr (jget project "slug") (jsOr (jget project "id") (.jstr "")))
    providerId := "modtale"
    title := jsToString (jsOr (jget project "title") (jsOr (jget project "name") (.jstr "")))
    description := jsToString (jsOr (jget project "description") (.jstr ""))
    shortDescription :=
      if truthy (jget project "shortDescription") then
        some (jsToString (jget project "shortDescription"))
      else
        some ((jsToString (jsOr (jget project "description") (.jstr ""))).take 200)
    classification := jsOr (jget project "classification") (.jstr "PLUGIN")
    author := transformAuthor (jget project "author")
    categories := []
    tags := some tags
    downloads := jsToNum (jsOr (jget project "downloadCount") (jsOr (jget project "downloads") (.jnum 0)))
    rating := some (jsToNum (jsOr (jget project "rating") (jsOr (jget project "averageRating") (.jnum 0))))
    ratingCount := some (jsToNum (jsOr (jget project "favoriteCount")
      (jsOr (jget project "ratingCount") (.jnum 0))))
    followers := none
    iconUrl :=
      if truthy (jget project "imageUrl") then some (jsToString (jget project "imageUrl"))
      else if truthy (jget project "iconUrl") then some (jsToString (jget project "iconUrl"))
      else none
    bannerUrl :=
      if truthy (jget project "bannerUrl") then some (jsToString (jget project "bannerUrl")) else none
    galleryImages :=
      match jget project "galleryImages" with
      | .jarr gs => some (gs.map jsToString)
      | _ => none
    versions := versions
    latestVersion := versions.head?
    gameVersions :=
      match jget project "gameVersions" with
      | .jarr gs => gs.map jsToString
      | _ => []
    createdAt := jsToString (jsOr (jget project "createdAt") (jsOr (jget project "createdDate") (.jstr "")))
    updatedAt := jsToString (jsOr (jget project "updatedAt")
      (jsOr (jget project "updatedDate") (jsOr (jget project "modifiedDate") (.jstr ""))))
    featured := some (truthy (jget project "featured"))
    raw := some project }

/-- `ModtaleProvider.mapSortField`. -/
def mapSortField (sortBy : String) : String :=
  if sortBy = "downloads" then "downloadCount"
  else if sortBy = "rating" then "rating"
  else if sortBy = "updated" then "updatedDate"
  else if sortBy = "created" then "createdDate"
  else if sortBy = "name" then "title"
  else sortBy

/-- The query string `ModtaleProvider.searchProjects` builds, as the
ordered list of appended key/value pairs. Modtale pages are 0-indexed:
the unified 1-indexed page is shifted down by one. -/
def buildSearchQuery (params : UnifiedSearchParams) : List (String × String) :=
  (if optStrTruthy params.query then [("search", params.query.getD "")] else []) ++
  (if optStrTruthy params.classification then [("classification", params.classification.getD "")] else []) ++
  (match params.tags with
   | some (t :: ts) => [("tags", String.intercalate "," (t :: ts))]
   | _ => []) ++
  (if optStrTruthy params.gameVersion then [("gameVersion", params.gameVersion.getD "")] else []) ++
  [("page", toString (coalesce params.page 1 - 1)),
   ("size", toString (coalesce params.pageSize 50))] ++
  (match params.sortBy with
   | some sb =>
     if sb != "" then [("sort", mapSortField sb ++ "," ++ orStr params.sortOrder "desc")] else []
   | none => [])

/-- The empty fallback response of `ModtaleProvider.searchProjects` for
an unrecognized body shape ("Unexpected response format", logged as a
warning). -/
def unexpectedFormatResponse (params : UnifiedSearchParams) : UnifiedSearchResponse :=
  { projects := []
    total := .num 0
    page := .num (orInt params.page 1)
    pageSize := .num (orInt params.pageSize 50)
    hasMore := false
    providerId := "modtale" }

/-- The response handling of `ModtaleProvider.searchProjects` on a
successful HTTP reply: the Spring paginated envelope (`content` key),
a bare array, an object with a `projects` key, or the logged-warning
empty fallback, tried in the source's order. A `content`/`projects`
value that is not an array makes the JS `.map` call raise. -/
def searchRespond (params : UnifiedSearchParams) (response : JVal) :
    Except String UnifiedSearchResponse :=
  if truthy response && typeofObject response && hasKey response "content" then
    match jget response "content" with
    | .jarr content =>
      .ok { projects := content.map transformProject
            total := jsToNum (jsOr (jget response "totalElements") (.jnum content.length))
            page := (jsToNum (jsOr (jget response "number") (.jnum 0))).add (.num 1)
            pageSize := jsToNum (jsOr (jget response "size") (jsOr (optIntJ params.pageSize) (.jnum 50)))
            hasMore := !truthy (jget response "last")
            providerId := "modtale" }
    | _ => .error "TypeError: content.map is not a function"
  else
    match asArr response with
    | some arr =>
      .ok { projects := arr.map transformProject
            total := .num arr.length
            page := .num (orInt params.page 1)
            pageSize := .num (orInt params.pageSize 50)
            hasMore := decide ((arr.length : Int) ≥ orInt params.pageSize 50)
            providerId := "modtale" }
    | none =>
      if truthy response && typeofObject response && hasKey response "projects" then
        match jget response "projects" with
        | .jarr projects =>
          .ok { projects := projects.map transformProject
                total := jsToNum (jsOr (jget response "total") (.jnum projects.length))
                page := jsToNum (jsOr (jget response "page") (jsOr (optIntJ params.page) (.jnum 1)))
                pageSize := jsToNum (jsOr (jget response "limit") (jsOr (optIntJ params.pageSize) (.jnum 50)))
                hasMore := truthy (jget response "hasMore")
                providerId := "modtale" }
        | _ => .error "TypeError: projects.map is not a function"
      else
        .ok (unexpectedFormatResponse params)

/-- The dependency mapping inside
`ModtaleProvider.getVersionDependencies`: a bare string dependency is
required; an object dependency is required unless its `required` field
is literally `false`. -/
def transformDependency (dep : JVal) : UnifiedDependency :=
  match dep with
  | .jstr s =>
    { projectId := s, projectName := s, versionId := none, required := true, depType := "required" }
  | d =>
    let req := !isFalseLit (jget d "required")
    { projectId := jsToString (jsOr (jget d "modId") (jsOr (jget d "projectId") (jget d "id")))
      projectName := jsToString (jsOr (jget d "name") (jsOr (jget d "projectName")
        (jsOr (jget d "modId") (jget d "projectId"))))
      versionId := if truthy (jget d "versionId") then some (jsToString (jget d "versionId")) else none
      required := req
      depType := if req then "required" else "optional" }

/-- `ModtaleProvider.getVersionDependencies` after the project fetch:
locate the version by strict id equality, read `modIds`/`dependencies`,
and map each entry; every failure path yields `[]`. -/
def versionDependenciesFrom (project : JVal) (versionId : String) : List UnifiedDependency :=
  let version :=
    match jget project "versions" with
    | .jarr vs => vs.find? (fun v => jstrEq (jget v "id") versionId)
    | _ => none
  match version with
  | none => []
  | some v =>
    match jsOr (jget v "modIds") (jsOr (jget v "dependencies") (.jarr [])) with
    | .jarr deps => deps.map transformDependency
    | _ => []

end ModtaleProvider

-- ==========================================
-- CurseForgeProvider (adapter for the CurseForge API)
-- ==========================================

namespace CurseForgeProvider

/-- A `dependencies` entry of a `CurseForgeFile` (modId, relationType). -/
structure CurseForgeDependencyRef where
  modId : Int
  relationType : Int
deriving Repr, DecidableEq

/-- The fields of the typed `CurseForgeFile` interface the adapter
reads. -/
structure CurseForgeFile where
  id : Int
  displayName : String
  fileName : String
  downloadCount : Int
  gameVersions : List String
  fileDate : String
  fileLength : Int
  dependencies : List CurseForgeDependencyRef
deriving Repr, DecidableEq

/-- The fields of the typed `CurseForgeCategory` interface the adapter
reads. -/
structure CurseForgeCategory where
  id : Int
  name : String
  slug : String
  catIconUrl : String
  isClass : Bool
deriving Repr, DecidableEq

/-- A `CurseForgeAuthor`. -/
structure CurseForgeAuthor where
  id : Int
  name : String
deriving Repr, DecidableEq

/-- A screenshot entry (only `url` is read). -/
structure CurseForgeScreenshot where
  url : String
deriving Repr, DecidableEq

/-- A `latestFilesIndexes` entry (only `gameVersion` is read). -/
structure CurseForgeFileIndex where
  gameVersion : String
deriving Repr, DecidableEq

/-- The fields of the typed `CurseForgeMod` interface the adapter reads.
`logoUrl` stands for `logo?.url` (the logo object may be null). -/
structure CurseForgeMod where
  id : Int
  name : String
  slug : String
  summary : String
  downloadCount : Int
  isFeatured : Bool
  categories : List CurseForgeCategory
  classId : Option Int
  authors : List CurseForgeAuthor
  logoUrl : Option String
  screenshots : List CurseForgeScreenshot
  latestFiles : List CurseForgeFile
  latestFilesIndexes : List CurseForgeFileIndex
  dateCreated : String
  dateModified : String
  thumbsUpCount : Int
  rating : Option Int
deriving Repr, DecidableEq

/-- Substring test used for `name.includes(...)`. -/
def strIncludes (s sub : String) : Bool := decide ((s.splitOn sub).length ≥ 2)

/-- The `classificationMap` entries `loadCategories` builds from the
class categories, in insertion order (`Map.set`; a later set of the same
key wins). -/
def buildClassificationMap (categories : List CurseForgeCategory) :
    List (Int × UnifiedClassification) :=
  categories.foldl
    (fun m cat =>
      if cat.isClass then
        let nm := cat.name.toLower
        if strIncludes nm "mod" && !strIncludes nm "modpack" then m ++ [(cat.id, .PLUGIN)]
        else if strIncludes nm "modpack" || strIncludes nm "pack" then m ++ [(cat.id, .MODPACK)]
        else if strIncludes nm "resource" || strIncludes nm "texture" || strIncludes nm "art" then
          m ++ [(cat.id, .ART)]
        else if strIncludes nm "world" || strIncludes nm "save" || strIncludes nm "map" then
          m ++ [(cat.id, .SAVE)]
        else if strIncludes nm "data" then m ++ [(cat.id, .DATA)]
        else m
      else m)
    []

/-- `Map.get` on the classification map: the last write to a key wins. -/
def mapGet (m : List (Int × UnifiedClassification)) (k : Int) : Option UnifiedClassification :=
  (m.reverse.find? (fun p => p.1 == k)).map (fun p => p.2)

/-- `CurseForgeProvider.getClassification`: `!classId` (absent or 0)
gives PLUGIN; otherwise the map entry, defaulting to PLUGIN. -/
def getClassification (m : List (Int × UnifiedClassification)) (classId : Option Int) :
    UnifiedClassification :=
  match classId with
  | none => .PLUGIN
  | some c => if c = 0 then .PLUGIN else (mapGet m c).getD .PLUGIN

/-- `CurseForgeProvider.transformFile`: CurseForge file to
`UnifiedVersion`. -/
def transformFile (file : CurseForgeFile) : UnifiedVersion :=
  { id := toString file.id
    version := if file.displayName != "" then file.displayName else file.fileName
    changelog := none
    downloads := .num file.downloadCount
    gameVersion := file.gameVersions.headD ""
    releaseDate := file.fileDate
    fileSize := .num file.fileLength
    fileName := file.fileName }

/-- `[...new Set(xs)]`: dedup keeping the first occurrence order. -/
def setDedup (xs : List String) : List String :=
  xs.foldl (fun acc x => if acc.contains x then acc else acc ++ [x]) []

/-- `CurseForgeProvider.transformMod`: CurseForge mod to
`UnifiedProject`, given the adapter's classification map. The `_raw`
payload is the typed mod record and is not retained here. -/
def transformMod (m : List (Int × UnifiedClassification)) (mod : CurseForgeMod) : UnifiedProject :=
  let author : UnifiedAuthor :=
    match mod.authors with
    | a :: _ => { id := toString a.id, username := a.name, displayName := some a.name, avatarUrl := none }
    | [] => { id := "unknown", username := "Unknown", displayName := some "Unknown", avatarUrl := none }
  let versions := mod.latestFiles.map transformFile
  let latestVersion := versions.head?
  let categories : List UnifiedCategory := mod.categories.map (fun c =>
    { id := toString c.id, name := c.name, slug := c.slug, iconUrl := some c.catIconUrl })
  let gameVersions := setDedup ((mod.latestFilesIndexes.map (fun f => f.gameVersion)).filter (· != ""))
  { id := toString mod.id
    slug := mod.slug
    providerId := "curseforge"
    title := mod.name
    description := mod.summary
    shortDescription := some (mod.summary.take 200)
    classification := (getClassification m mod.classId).toJVal
    author := author
    categories := categories
    tags := none
    downloads := .num mod.downloadCount
    rating := mod.rating.map (fun r => JsNum.num r)
    ratingCount := some (.num mod.thumbsUpCount)
    followers := none
    iconUrl := mod.logoUrl
    bannerUrl := (mod.screenshots.head?).map (fun s => s.url)
    galleryImages := some (mod.screenshots.map (fun s => s.url))
    versions := versions
    latestVersion := latestVersion
    gameVersions := gameVersions
    createdAt := mod.dateCreated
    updatedAt := mod.dateModified
    featured := some mod.isFeatured
    raw := none }

/-- `CurseForgeProvider.mapSortField`: unified sort name to the numeric
CurseForge sort field (`mapping[sortBy] || 2`). -/
def mapSortField (sortBy : String) : Int :=
  if sortBy = "downloads" then 2
  else if sortBy = "rating" then 3
  else if sortBy = "updated" then 4
  else if sortBy = "created" then 11
  else if sortBy = "name" then 1
  else 2

/-- The query string `CurseForgeProvider.searchProjects` builds (after a
game id is available), as the ordered list of appended key/value pairs.
CurseForge is offset-indexed: `index = (page-1)*pageSize` with
`pageSize` capped at 50. -/
def buildSearchQuery (hytaleGameId : Int) (m : List (Int × UnifiedClassification))
    (params : UnifiedSearchParams) : List (String × String) :=
  [("gameId", toString hytaleGameId)] ++
  (if optStrTruthy params.query then [("searchFilter", params.query.getD "")] else []) ++
  (match params.classification with
   | some c =>
     if c != "" then
       match m.find? (fun p => p.2.toStr == c) with
       | some p => [("classId", toString p.1)]
       | none => []
     else []
   | none => []) ++
  (match params.categories with
   | some (c :: cs) => [("categoryIds", "[" ++ String.intercalate "," (c :: cs) ++ "]")]
   | _ => []) ++
  (if optStrTruthy params.gameVersion then [("gameVersion", params.gameVersion.getD "")] else []) ++
  [("index", toString ((coalesce params.page 1 - 1) * min (coalesce params.pageSize 50) 50)),
   ("pageSize", toString (min (coalesce params.pageSize 50) 50))] ++
  (match params.sortBy with
   | some sb =>
     if sb != "" then
       [("sortField", toString (mapSortField sb)),
        ("sortOrder", if params.sortOrder = some "asc" then "asc" else "desc")]
     else []
   | none => [])

/-- The empty response `searchProjects` returns when no Hytale game id
could be discovered (note the 20 default page size in this branch). -/
def noGameIdResponse (params : UnifiedSearchParams) : UnifiedSearchResponse :=
  { projects := []
    total := .num 0
    page := .num (orInt params.page 1)
    pageSize := .num (orInt params.pageSize 20)
    hasMore := false
    providerId := "curseforge" }

/-- The response handling of `CurseForgeProvider.searchProjects` on a
successful HTTP reply. The body is cast unchecked to
`{data; pagination}`: `response.data.map` raises unless `data` is an
array, and reading `pagination.totalCount` raises when `pagination` is
null/undefined — there is no graceful shape fallback here. `decodeMod`
stands for the unchecked element cast to the typed `CurseForgeMod`. -/
def searchRespond (m : List (Int × UnifiedClassification)) (decodeMod : JVal → CurseForgeMod)
    (params : UnifiedSearchParams) (response : JVal) : Except String UnifiedSearchResponse :=
  let page := coalesce params.page 1
  let pageSize := min (coalesce params.pageSize 50) 50
  match jget response "data" with
  | .jarr ms =>
    match jget response "pagination" with
    | .jundefined => .error "TypeError: cannot read properties of undefined"
    | .jnull => .error "TypeError: cannot read properties of null"
    | pagination =>
      .ok { projects := ms.map (fun j => transformMod m (decodeMod j))
            total := jvalRaw (jget pagination "totalCount")
            page := .num page
            pageSize := .num pageSize
            hasMore := ((jvalRaw (jget pagination "index")).add
              (jvalRaw (jget pagination "resultCount"))).ltb (jvalRaw (jget pagination "totalCount"))
            providerId := "curseforge" }
  | _ => .error "TypeError: response.data.map is not a function"

/-- `CurseForgeProvider.getVersionDependencies` after the file fetch:
each dependency is emitted with `required`/`type` derived from
`relationType` (3 = Required); `resolveName` stands for the per-entry
mod-name lookup, `none` being the caught failure that falls back to the
synthetic `Mod #<id>` label. -/
def versionDependenciesFrom (deps : List CurseForgeDependencyRef)
    (resolveName : Int → Option String) : List UnifiedDependency :=
  deps.map (fun dep =>
    match resolveName dep.modId with
    | some nm =>
      { projectId := toString dep.modId
        projectName := nm
        versionId := none
        required := dep.relationType == (3 : Int)
        depType :=
          if dep.relationType == (3 : Int) then "required"
          else if dep.relationType == (2 : Int) then "optional" else "optional" }
    | none =>
      { projectId := toString dep.modId
        projectName := "Mod #" ++ toString dep.modId
        versionId := none
        required := dep.relationType == (3 : Int)
        depType := if dep.relationType == (3 : Int) then "required" else "optional" })

end CurseForgeProvider

-- ==========================================
-- ModProviderRegistry and ModProviderService
-- ==========================================

/-- A registered adapter as the registry and service see it: identity,
configuration state, and its operations. The operations are modelled as
oracles (arbitrary functions) so that registry/service theorems hold for
every adapter behavior; a download stream is represented by `Unit`.
`getProjectBySlug` and `getTags` are the optional interface members. -/
structure IModProvider where
  id : String
  displayName : String
  requiresApiKey : Bool
  isConfigured : Bool
  searchProjects : UnifiedSearchParams → Except String UnifiedSearchResponse
  getProject : String → Except String UnifiedProject
  getProjectBySlug : Option (String → Except String UnifiedProject)
  getCategories : Unit → Except String (List UnifiedCategory)
  getTags : Option (Unit → Except String (List UnifiedTag))
  getVersionDependencies : String → String → Except String (List UnifiedDependency)
  downloadVersion : String → String → Except String Unit

namespace ModProviderRegistry

/-- The registry's provider map, in insertion (iteration) order. -/
abbrev Registry := List IModProvider

/-- `ModProviderRegistry.getProvider`. -/
def getProvider (providers : Registry) (providerId : String) : Option IModProvider :=
  providers.find? (fun p => p.id == providerId)

/-- `ModProviderRegistry.getConfiguredProviders`. -/
def getConfiguredProviders (providers : Registry) : Registry :=
  providers.filter (fun p => p.isConfigured)

/-- The synthetic empty `UnifiedSearchResponse` substituted for a
provider whose `searchProjects` call raised inside `searchAll`. -/
def failedResponse (provider : IModProvider) (params : UnifiedSearchParams) :
    UnifiedSearchResponse :=
  { projects := []
    total := .num 0
    page := .num (orInt params.page 1)
    pageSize := .num (orInt params.pageSize 50)
    hasMore := false
    providerId := provider.id }

/-- `ModProviderRegistry.searchAll`: empty short-circuit when no
provider is configured; otherwise every configured provider is queried
(the `Promise.all` join preserves registry order), a raising provider is
substituted with `failedResponse`, and `totalAcrossProviders` reduces
the `total` fields with `+` over the results. -/
def searchAll (providers : Registry) (params : UnifiedSearchParams) :
    MultiProviderSearchResponse :=
  let configuredProviders := getConfiguredProviders providers
  if configuredProviders.length = 0 then
    { results := [], totalAcrossProviders := .num 0 }
  else
    let results := configuredProviders.map (fun provider =>
      match provider.searchProjects params with
      | .ok result => result
      | .error _ => failedResponse provider params)
    { results := results
      totalAcrossProviders := results.foldl (fun sum r => sum.add r.total) (.num 0) }

end ModProviderRegistry

namespace ModProviderService

open ModProviderRegistry

/-- The "Provider not found" error message. -/
def notFoundErr (providerId : String) : String :=
  "Provider not found: " ++ providerId

/-- The "not configured" error message. -/
def notConfiguredErr (providerId : String) : String :=
  "Provider " ++ providerId ++ " is not configured. Please set up the API key."

/-- `ModProviderService.search`. -/
def search (registry : Registry) (providerId : String) (params : UnifiedSearchParams) :
    Except String UnifiedSearchResponse :=
  match getProvider registry providerId with
  | none => .error (notFoundErr providerId)
  | some provider =>
    if !provider.isConfigured then .error (notConfiguredErr providerId)
    else provider.searchProjects params

/-- `ModProviderService.searchAll`: pure delegation to the registry. -/
def searchAll (registry : Registry) (params : UnifiedSearchParams) :
    MultiProviderSearchResponse :=
  ModProviderRegistry.searchAll registry params

/-- `ModProviderService.getProject`. -/
def getProject (registry : Registry) (providerId projectId : String) :
    Except String UnifiedProject :=
  match getProvider registry providerId with
  | none => .error (notFoundErr providerId)
  | some provider =>
    if !provider.isConfigured then .error (notConfiguredErr providerId)
    else provider.getProject projectId

/-- `ModProviderService.getProjectBySlug`. -/
def getProjectBySlug (registry : Registry) (providerId slug : String) :
    Except String UnifiedProject :=
  match getProvider registry providerId with
  | none => .error (notFoundErr providerId)
  | some provider =>
    if !provider.isConfigured then .error (notConfiguredErr providerId)
    else
      match provider.getProjectBySlug with
      | none => .error ("Provider " ++ providerId ++ " does not support slug-based lookup")
      | some bySlug => bySlug slug

/-- `ModProviderService.getCategories`. -/
def getCategories (registry : Registry) (providerId : String) :
    Except String (List UnifiedCategory) :=
  match getProvider registry providerId with
  | none => .error (notFoundErr providerId)
  | some provider =>
    if !provider.isConfigured then .error (notConfiguredErr providerId)
    else provider.getCategories ()

/-- `ModProviderService.getTags`: a provider without the optional
`getTags` member yields `[]` (after the configuration check). -/
def getTags (registry : Registry) (providerId : String) :
    Except String (List UnifiedTag) :=
  match getProvider registry providerId with
  | none => .error (notFoundErr providerId)
  | some provider =>
    if !provider.isConfigured then .error (notConfiguredErr providerId)
    else
      match provider.getTags with
      | none => .ok []
      | some tags => tags ()

/-- `ModProviderService.getVersionDependencies`. -/
def getVersionDependencies (registry : Registry) (providerId projectId versionId : String) :
    Except String (List UnifiedDependency) :=
  match getProvider registry providerId with
  | none => .error (notFoundErr providerId)
  | some provider =>
    if !provider.isConfigured then .error (notConfiguredErr providerId)
    else provider.getVersionDependencies projectId versionId

/-- `ModProviderService.downloadVersion`. -/
def downloadVersion (registry : Registry) (providerId projectId versionId : String) :
    Except String Unit :=
  match getProvider registry providerId with
  | none => .error (notFoundErr providerId)
  | some provider =>
    if !provider.isConfigured then .error (notConfiguredErr providerId)
    else provider.downloadVersion projectId versionId

/-- `ModProviderService.downloadForInstallation`: fetch the project,
resolve the version (`versions.find(v => v.id === versionId) ||
latestVersion`), open the stream, and return it with the derived
`UnifiedModMetadata`. Note that the metadata's `versionId` is the
requested id, while `versionName` comes from the resolved version. -/
def downloadForInstallation (registry : Registry) (providerId projectId versionId : String) :
    Except String (Unit × UnifiedModMetadata) :=
  match getProvider registry providerId with
  | none => .error (notFoundErr providerId)
  | some provider =>
    if !provider.isConfigured then .error (notConfiguredErr providerId)
    else
      match provider.getProject projectId with
      | .error e => .error e
      | .ok project =>
        match (project.versions.find? (fun v => v.id == versionId)).orElse
            (fun _ => project.latestVersion) with
        | none => .error ("Version " ++ versionId ++ " not found for project " ++ projectId)
        | some version =>
          match provider.downloadVersion projectId versionId with
          | .error e => .error e
          | .ok stream =>
            .ok (stream,
              { providerId := providerId
                projectId := projectId
                projectTitle := project.title
                projectIconUrl := project.iconUrl
                versionId := versionId
                versionName := version.version
                classification := project.classification
                fileSize := version.fileSize })

end ModProviderService

-- ==========================================
-- Helpers for the statements and proofs
-- ==========================================

/-- Whether a fallible operation raised. -/
def isErr {α : Type} : Except String α → Bool
  | .error _ => true
  | .ok _ => false

/-- The reduction `results.reduce((sum, r) => sum + r.total, 0)`. -/
def sumTotals (rs : List UnifiedSearchResponse) : JsNum :=
  rs.foldl (fun sum r => sum.add r.total) (.num 0)

/-- A runtime classification value lies in the closed enumeration
{PLUGIN, DATA, ART, SAVE, MODPACK} (as strict string equality sees it). -/
def classificationInEnum (v : JVal) : Bool :=
  jstrEq v "PLUGIN" || jstrEq v "DATA" || jstrEq v "ART" ||
  jstrEq v "SAVE" || jstrEq v "MODPACK"

theorem JsNum.add_num_zero (a : JsNum) : a.add (.num 0) = a := by
  cases a <;> simp [JsNum.add]

/-- Value of the first query parameter with the given key. -/
def queryParam (q : List (String × String)) (k : String) : Option String :=
  (q.find? (fun kv => kv.1 == k)).map (fun kv => kv.2)

theorem queryParam_append (l1 l2 : List (String × String)) (k : String) :
    queryParam (l1 ++ l2) k = ((queryParam l1 k).orElse (fun _ => queryParam l2 k)) := by
  simp [queryParam, List.find?_append]
  cases l1.find? (fun kv => kv.1 == k) <;> simp [Option.orElse]

-- ==========================================
-- Claim theorems
-- ==========================================

/-- C10: when no registered provider is configured, `searchAll` returns
`{results: [], totalAcrossProviders: 0}`. The providers' `searchProjects`
functions are universally quantified and the conclusion does not depend
on them, so no adapter search (hence no network operation) contributes
to the result. -/
theorem searchAll_empty_when_no_configured_provider
    (providers : ModProviderRegistry.Registry) (params : UnifiedSearchParams)
    (h : ∀ p ∈ providers, p.isConfigured = false) :
    ModProviderRegistry.searchAll providers params
      = { results := [], totalAcrossProviders := .num 0 } := by
  have hfilter : ModProviderRegistry.getConfiguredProviders providers = [] := by
    simp [ModProviderRegistry.getConfiguredProviders, List.filter_eq_nil_iff]
    exact h
  simp [ModProviderRegistry.searchAll, hfilter]

/-- Concrete instance for C10: one registered, unconfigured provider. -/
def c10Provider : IModProvider :=
  { id := "modtale"
    displayName := "Modtale"
    requiresApiKey := true
    isConfigured := false
    searchProjects := fun _ => .error "network reached"
    getProject := fun _ => .error "network reached"
    getProjectBySlug := none
    getCategories := fun _ => .error "network reached"
    getTags := none
    getVersionDependencies := fun _ _ => .error "network reached"
    downloadVersion := fun _ _ => .error "network reached" }

theorem searchAll_empty_when_no_configured_provider_witness :
    ModProviderRegistry.searchAll [c10Provider] {}
      = { results := [], totalAcrossProviders := .num 0 } :=
  searchAll_empty_when_no_configured_provider [c10Provider] {}
    (by intro p hp; simp at hp; subst hp; rfl)

/-- C5: for both adapters' project transforms, the denormalized
`latestVersion` is `versions[0]` — `List.head?`, which is `some` of the
first element exactly when `versions` is non-empty and `none` (absent)
exactly when it is empty, which is the claimed invariant. -/
theorem latestVersion_is_head_of_versions
    (project : JVal) (m : List (Int × UnifiedClassification))
    (mod : CurseForgeProvider.CurseForgeMod) :
    (ModtaleProvider.transformProject project).latestVersion
      = (ModtaleProvider.transformProject project).versions.head? ∧
    (CurseForgeProvider.transformMod m mod).latestVersion
      = (CurseForgeProvider.transformMod m mod).versions.head? :=
  ⟨rfl, rfl⟩

/-- Interspersing the zero totals of failed providers does not change
the reduction: summing every entry's `total` equals summing only the
succeeding providers' totals. -/
theorem foldl_totals_map_eq_foldl_totals_oks (params : UnifiedSearchParams) :
    ∀ (l : List IModProvider) (acc : JsNum),
      ((l.map (fun provider =>
          match provider.searchProjects params with
          | .ok result => result
          | .error _ => ModProviderRegistry.failedResponse provider params)).foldl
        (fun sum r => sum.add r.total) acc)
      = ((l.filterMap (fun p => (p.searchProjects params).toOption)).foldl
          (fun sum r => sum.add r.total) acc) := by
  intro l
  induction l with
  | nil => intro acc; rfl
  | cons p rest ih =>
    intro acc
    cases hp : p.searchProjects params with
    | ok r =>
      simp only [List.map_cons, List.foldl_cons, List.filterMap_cons, hp, Except.toOption]
      exact ih _
    | error e =>
      simp only [List.map_cons, List.foldl_cons, List.filterMap_cons, hp, Except.toOption,
        ModProviderRegistry.failedResponse, JsNum.add_num_zero]
      exact ih _

/-- C1: with at least one configured provider, `searchAll` returns one
entry per configured provider in registry iteration order: a succeeding
provider's entry is its own response, a raising provider's entry is the
synthetic empty response carrying its provider id, the requested page
(default 1) and pageSize (default 50), no projects, `total = 0` and
`hasMore = false`; no failure escapes (`searchAll` is total), and
`totalAcrossProviders` reduces the `total` fields of all entries — which
equals the sum over the succeeding providers' totals only, the failed
entries contributing zero. -/
theorem searchAll_per_provider_isolation
    (providers : ModProviderRegistry.Registry) (params : UnifiedSearchParams)
    (h : ModProviderRegistry.getConfiguredProviders providers ≠ []) :
    (ModProviderRegistry.searchAll providers params).results.length
        = (ModProviderRegistry.getConfiguredProviders providers).length ∧
    (∀ i, (hi : i < (ModProviderRegistry.getConfiguredProviders providers).length) → ∀ r,
       ((ModProviderRegistry.getConfiguredProviders providers).get ⟨i, hi⟩).searchProjects params
           = .ok r →
       (ModProviderRegistry.searchAll providers params).results[i]? = some r) ∧
    (∀ i, (hi : i < (ModProviderRegistry.getConfiguredProviders providers).length) → ∀ e,
       ((ModProviderRegistry.getConfiguredProviders providers).get ⟨i, hi⟩).searchProjects params
           = .error e →
       (ModProviderRegistry.searchAll providers params).results[i]?
         = some { projects := [], total := .num 0, page := .num (orInt params.page 1),
                  pageSize := .num (orInt params.pageSize 50), hasMore := false,
                  providerId :=
                    ((ModProviderRegistry.getConfiguredProviders providers).get ⟨i, hi⟩).id }) ∧
    (ModProviderRegistry.searchAll providers params).totalAcrossProviders
        = sumTotals (ModProviderRegistry.searchAll providers params).results ∧
    (ModProviderRegistry.searchAll providers params).totalAcrossProviders
        = sumTotals ((ModProviderRegistry.getConfiguredProviders providers).filterMap
            (fun p => (p.searchProjects params).toOption)) := by
  have hne : ¬ (ModProviderRegistry.getConfiguredProviders providers).length = 0 := by
    simpa [List.length_eq_zero] using h
  have hresp : ModProviderRegistry.searchAll providers params
      = { results := (ModProviderRegistry.getConfiguredProviders providers).map
            (fun provider =>
              match provider.searchProjects params with
              | .ok result => result
              | .error _ => ModProviderRegistry.failedResponse provider params),
          totalAcrossProviders :=
            ((ModProviderRegistry.getConfiguredProviders providers).map
              (fun provider =>
                match provider.searchProjects params with
                | .ok result => result
                | .error _ => ModProviderRegistry.failedResponse provider params)).foldl
              (fun sum r => sum.add r.total) (.num 0) } := by
    simp only [ModProviderRegistry.searchAll]
    rw [if_neg hne]
  refine ⟨?_, ?_, ?_, ?_, ?_⟩
  · rw [hresp]; simp
  · intro i hi r hr
    rw [hresp]
    simp only [List.getElem?_map, List.getElem?_eq_getElem hi]
    simp only [List.get_eq_getElem] at hr
    simp [hr]
  · intro i hi e he
    rw [hresp]
    simp only [List.getElem?_map, List.getElem?_eq_getElem hi]
    simp only [List.get_eq_getElem] at he
    simp [he, ModProviderRegistry.failedResponse]
  · rw [hresp]; rfl
  · rw [hresp]
    exact foldl_totals_map_eq_foldl_totals_oks params _ _

/-- A configured provider whose search succeeds (for the C1 witness). -/
def c1OkResponse : UnifiedSearchResponse :=
  { projects := [], total := .num 7, page := .num 1, pageSize := .num 50,
    hasMore := false, providerId := "modtale" }

/-- A configured provider whose search succeeds (for the C1 witness). -/
def c1OkProvider : IModProvider :=
  { id := "modtale"
    displayName := "Modtale"
    requiresApiKey := true
    isConfigured := true
    searchProjects := fun _ => .ok c1OkResponse
    getProject := fun _ => .error "unused"
    getProjectBySlug := none
    getCategories := fun _ => .error "unused"
    getTags := none
    getVersionDependencies := fun _ _ => .error "unused"
    downloadVersion := fun _ _ => .error "unused" }

/-- A configured provider whose search raises (for the C1 witness). -/
def c1FailProvider : IModProvider :=
  { id := "curseforge"
    displayName := "CurseForge"
    requiresApiKey := true
    isConfigured := true
    searchProjects := fun _ => .error "HTTP 500"
    getProject := fun _ => .error "unused"
    getProjectBySlug := none
    getCategories := fun _ => .error "unused"
    getTags := none
    getVersionDependencies := fun _ _ => .error "unused"
    downloadVersion := fun _ _ => .error "unused" }

theorem searchAll_per_provider_isolation_witness :
    (ModProviderRegistry.searchAll [c1OkProvider, c1FailProvider] {}).results.length
        = (ModProviderRegistry.getConfiguredProviders [c1OkProvider, c1FailProvider]).length ∧
    (∀ i, (hi : i < (ModProviderRegistry.getConfiguredProviders
            [c1OkProvider, c1FailProvider]).length) → ∀ r,
       ((ModProviderRegistry.getConfiguredProviders [c1OkProvider, c1FailProvider]).get
            ⟨i, hi⟩).searchProjects {} = .ok r →
       (ModProviderRegistry.searchAll [c1OkProvider, c1FailProvider] {}).results[i]? = some r) ∧
    (∀ i, (hi : i < (ModProviderRegistry.getConfiguredProviders
            [c1OkProvider, c1FailProvider]).length) → ∀ e,
       ((ModProviderRegistry.getConfiguredProviders [c1OkProvider, c1FailProvider]).get
            ⟨i, hi⟩).searchProjects {} = .error e →
       (ModProviderRegistry.searchAll [c1OkProvider, c1FailProvider] {}).results[i]?
         = some { projects := [], total := .num 0, page := .num (orInt ({} : UnifiedSearchParams).page 1),
                  pageSize := .num (orInt ({} : UnifiedSearchParams).pageSize 50), hasMore := false,
                  providerId :=
                    ((ModProviderRegistry.getConfiguredProviders
                      [c1OkProvider, c1FailProvider]).get ⟨i, hi⟩).id }) ∧
    (ModProviderRegistry.searchAll [c1OkProvider, c1FailProvider] {}).totalAcrossProviders
        = sumTotals (ModProviderRegistry.searchAll [c1OkProvider, c1FailProvider] {}).results ∧
    (ModProviderRegistry.searchAll [c1OkProvider, c1FailProvider] {}).totalAcrossProviders
        = sumTotals ((ModProviderRegistry.getConfiguredProviders
            [c1OkProvider, c1FailProvider]).filterMap
            (fun p => (p.searchProjects {}).toOption)) :=
  searchAll_per_provider_isolation [c1OkProvider, c1FailProvider] {}
    (by simp [ModProviderRegistry.getConfiguredProviders, c1OkProvider, c1FailProvider])

/-- C8: every dependency either adapter emits satisfies
`required == true` iff `type == 'required'`, on every branch: Modtale's
bare-string and object dependencies, and CurseForge's resolved and
unresolved (`Mod #<id>` fallback) dependencies, for any resolution
outcome `resolveName`. -/
theorem dependency_required_iff_type_required
    (project : JVal) (versionId : String)
    (deps : List CurseForgeProvider.CurseForgeDependencyRef) (resolveName : Int → Option String) :
    (∀ d ∈ ModtaleProvider.versionDependenciesFrom project versionId,
       d.required = true ↔ d.depType = "required") ∧
    (∀ d ∈ CurseForgeProvider.versionDependenciesFrom deps resolveName,
       d.required = true ↔ d.depType = "required") := by
  have key : ∀ x : JVal, ((ModtaleProvider.transformDependency x).required = true
      ↔ (ModtaleProvider.transformDependency x).depType = "required") := by
    intro x
    cases x <;> simp [ModtaleProvider.transformDependency]
  constructor
  · intro d hd
    unfold ModtaleProvider.versionDependenciesFrom at hd
    rcases hv : jget project "versions" with _ | _ | b | n | s | vs | fs <;>
      rw [hv] at hd <;> try simp at hd
    rcases hf : List.find? (fun v => jstrEq (jget v "id") versionId) vs with _ | w <;>
      rw [hf] at hd <;> try simp at hd
    rcases hj : jsOr (jget w "modIds") (jsOr (jget w "dependencies") (.jarr [])) with
      _ | _ | b2 | n2 | s2 | ds | fs2 <;> rw [hj] at hd <;> try simp at hd
    obtain ⟨x, _, rfl⟩ := hd
    exact key x
  · intro d hd
    unfold CurseForgeProvider.versionDependenciesFrom at hd
    rcases List.mem_map.1 hd with ⟨dep, _, rfl⟩
    cases hr : resolveName dep.modId <;>
      cases h3 : dep.relationType == (3 : Int) <;>
        simp [hr, h3, ite_self]

/-- The project payload used by the C8 witness: one version `v1` with a
single bare-string dependency. -/
def c8Project : JVal :=
  .jobj [("versions", .jarr [.jobj [("id", .jstr "v1"), ("modIds", .jarr [.jstr "libA"])]])]

/-- The dependency the C8 witness project produces. -/
def c8Dep : UnifiedDependency :=
  { projectId := "libA", projectName := "libA", versionId := none,
    required := true, depType := "required" }

theorem dependency_required_iff_type_required_witness :
    (c8Dep.required = true ↔ c8Dep.depType = "required") :=
  (dependency_required_iff_type_required c8Project "v1"
      [{ modId := 10, relationType := 3 }] (fun _ => none)).1 c8Dep (by decide)

/-- C9 counterexample: a Modtale version payload reporting the file size
-5 has it passed through by `transformVersion`, so the unconditional
"fileSize ≥ 0 for any upstream payload" fails. -/
theorem modtale_fileSize_negative_passthrough :
    (ModtaleProvider.transformVersion (.jobj [("fileSize", .jnum (-5))])).fileSize
        = .num (-5) ∧
    JsNum.ltb (.num (-5)) (.num 0) = true :=
  ⟨rfl, rfl⟩

/-- C9 (amended): when the upstream size datum is well-formed — Modtale's
`fileSize`/`size` fields each absent or a nonnegative number, CurseForge's
`fileLength` nonnegative — the produced `fileSize` is a number `≥ 0`
(absent data defaults to 0); a negative upstream number passes through
unchanged, which is what refutes the unconditional claim. -/
theorem transformVersion_fileSize_nonneg_for_wellformed_sizes
    (v : JVal) (file : CurseForgeProvider.CurseForgeFile)
    (h1 : jget v "fileSize" = .jundefined ∨ ∃ n : Int, jget v "fileSize" = .jnum n ∧ 0 ≤ n)
    (h2 : jget v "size" = .jundefined ∨ ∃ n : Int, jget v "size" = .jnum n ∧ 0 ≤ n)
    (h3 : 0 ≤ file.fileLength) :
    (∃ n : Int, (ModtaleProvider.transformVersion v).fileSize = .num n ∧ 0 ≤ n) ∧
    (∃ n : Int, (CurseForgeProvider.transformFile file).fileSize = .num n ∧ 0 ≤ n) := by
  constructor
  · have hfs : (ModtaleProvider.transformVersion v).fileSize
        = jsToNum (jsOr (jget v "fileSize") (jsOr (jget v "size") (.jnum 0))) := rfl
    rw [hfs]
    have hy : ∃ k : Int, jsOr (jget v "size") (.jnum 0) = .jnum k ∧ 0 ≤ k := by
      rcases h2 with h2 | ⟨m, hm, hm0⟩
      · exact ⟨0, by rw [h2]; rfl, le_refl 0⟩
      · by_cases hm0eq : m = 0
        · subst hm0eq; exact ⟨0, by rw [hm]; rfl, le_refl 0⟩
        · exact ⟨m, by rw [hm]; simp [jsOr, truthy, hm0eq], hm0⟩
    rcases hy with ⟨k, hk, hk0⟩
    rcases h1 with h1 | ⟨n, hn, hn0⟩
    · refine ⟨k, ?_, hk0⟩
      rw [h1]
      have hstep : jsOr JVal.jundefined (jsOr (jget v "size") (.jnum 0))
          = jsOr (jget v "size") (.jnum 0) := rfl
      rw [hstep, hk]
      rfl
    · by_cases hn0eq : n = 0
      · refine ⟨k, ?_, hk0⟩
        subst hn0eq
        rw [hn]
        have hstep : jsOr (JVal.jnum 0) (jsOr (jget v "size") (.jnum 0))
            = jsOr (jget v "size") (.jnum 0) := rfl
        rw [hstep, hk]
        rfl
      · refine ⟨n, ?_, hn0⟩
        rw [hn]
        simp [jsOr, truthy, hn0eq, jsToNum]
  · exact ⟨file.fileLength, rfl, h3⟩

/-- The file record used by the C9 witness. -/
def c9File : CurseForgeProvider.CurseForgeFile :=
  { id := 1, displayName := "Lib 1.0", fileName := "lib.zip", downloadCount := 0,
    gameVersions := [], fileDate := "", fileLength := 3, dependencies := [] }

theorem transformVersion_fileSize_nonneg_witness :
    (∃ n : Int,
      (ModtaleProvider.transformVersion (.jobj [("fileSize", .jnum 100)])).fileSize
        = .num n ∧ 0 ≤ n) ∧
    (∃ n : Int, (CurseForgeProvider.transformFile c9File).fileSize = .num n ∧ 0 ≤ n) :=
  transformVersion_fileSize_nonneg_for_wellformed_sizes
    (.jobj [("fileSize", .jnum 100)]) c9File
    (Or.inr ⟨100, rfl, by decide⟩) (Or.inl rfl) (by decide)

/-- C2 (amended): when the requested `versionId` is absent from the
fetched project's versions, `downloadForInstallation` falls back to
`latestVersion`: with a `latestVersion` present (and the download stream
opening), the operation succeeds and the returned metadata carries the
REQUESTED `versionId` unchanged together with the resolved
(latest) version's `version` label as `versionName`; with no
`latestVersion` either, the operation raises. -/
theorem downloadForInstallation_latestVersion_fallback
    (registry : ModProviderRegistry.Registry) (providerId projectId versionId : String)
    (provider : IModProvider) (project : UnifiedProject)
    (hfind : ModProviderRegistry.getProvider registry providerId = some provider)
    (hconf : provider.isConfigured = true)
    (hproj : provider.getProject projectId = .ok project)
    (hmiss : project.versions.find? (fun v => v.id == versionId) = none) :
    (∀ lv, project.latestVersion = some lv →
      ∀ s, provider.downloadVersion projectId versionId = .ok s →
      ModProviderService.downloadForInstallation registry providerId projectId versionId
        = .ok (s, { providerId := providerId, projectId := projectId,
                    projectTitle := project.title, projectIconUrl := project.iconUrl,
                    versionId := versionId, versionName := lv.version,
                    classification := project.classification, fileSize := lv.fileSize })) ∧
    (project.latestVersion = none →
      ModProviderService.downloadForInstallation registry providerId projectId versionId
        = .error ("Version " ++ versionId ++ " not found for project " ++ projectId)) := by
  constructor
  · intro lv hlv s hs
    unfold ModProviderService.downloadForInstallation
    rw [hfind]
    simp [hconf, hproj, hmiss, Option.orElse, hlv, hs]
  · intro hlv
    unfold ModProviderService.downloadForInstallation
    rw [hfind]
    simp [hconf, hproj, hmiss, Option.orElse, hlv]

/-- The single version (`id = "v1"`) of the C2 project. -/
def c2Version : UnifiedVersion :=
  { id := "v1", version := "1.0", changelog := none, downloads := .num 0,
    gameVersion := "", releaseDate := "", fileSize := .num 10, fileName := "a.zip" }

/-- The C2 project: versions `["v1"]`, `latestVersion = v1`. -/
def c2Project : UnifiedProject :=
  { id := "p1", slug := "p1", providerId := "modtale", title := "P",
    description := "", shortDescription := none, classification := .jstr "PLUGIN",
    author := { id := "a", username := "a", displayName := none, avatarUrl := none },
    categories := [], tags := none, downloads := .num 0, rating := none,
    ratingCount := none, followers := none, iconUrl := none, bannerUrl := none,
    galleryImages := none, versions := [c2Version], latestVersion := some c2Version,
    gameVersions := [], createdAt := "", updatedAt := "", featured := none, raw := none }

/-- The configured C2 provider, serving `c2Project` and a stream. -/
def c2Provider : IModProvider :=
  { id := "X"
    displayName := "X"
    requiresApiKey := true
    isConfigured := true
    searchProjects := fun _ => .error "unused"
    getProject := fun _ => .ok c2Project
    getProjectBySlug := none
    getCategories := fun _ => .error "unused"
    getTags := none
    getVersionDependencies := fun _ _ => .ok []
    downloadVersion := fun _ _ => .ok () }

/-- C2 counterexample: requesting the missing version `v9` of `c2Project`
(whose `latestVersion` is `v1`) succeeds, but the returned metadata's
`versionId` is the requested `"v9"` — not the latest version's id `"v1"`
as the claim states (only `versionName` comes from `latestVersion`). -/
theorem downloadForInstallation_requested_id_counterexample :
    ModProviderService.downloadForInstallation [c2Provider] "X" "p1" "v9"
      = .ok ((), { providerId := "X", projectId := "p1", projectTitle := "P",
                   projectIconUrl := none, versionId := "v9", versionName := "1.0",
                   classification := .jstr "PLUGIN", fileSize := .num 10 }) ∧
    c2Project.latestVersion = some c2Version ∧
    c2Version.id = "v1" ∧
    (("v9" : String) == "v1") = false :=
  ⟨rfl, rfl, rfl, rfl⟩

theorem downloadForInstallation_latestVersion_fallback_witness :
    ModProviderService.downloadForInstallation [c2Provider] "X" "p1" "v9"
      = .ok ((), { providerId := "X", projectId := "p1", projectTitle := "P",
                   projectIconUrl := none, versionId := "v9", versionName := "1.0",
                   classification := .jstr "PLUGIN", fileSize := .num 10 }) :=
  (downloadForInstallation_latestVersion_fallback [c2Provider] "X" "p1" "v9"
      c2Provider c2Project rfl rfl rfl rfl).1 c2Version rfl () rfl

/-- C6: every per-provider read operation of the service — `search`,
`getProject`, `getProjectBySlug`, `getCategories`, `getTags`,
`getVersionDependencies`, `downloadVersion`, `downloadForInstallation` —
raises when the provider id is unknown and when the provider exists but
`isConfigured()` is false (the hypothesis covers both cases at once).
The providers' operation functions are universally quantified and never
reached, so no adapter (hence no network) operation is attempted. -/
theorem service_ops_raise_without_configured_provider
    (registry : ModProviderRegistry.Registry) (providerId : String)
    (params : UnifiedSearchParams) (projectId slug versionId : String)
    (h : ∀ provider, ModProviderRegistry.getProvider registry providerId = some provider →
         provider.isConfigured = false) :
    isErr (ModProviderService.search registry providerId params) = true ∧
    isErr (ModProviderService.getProject registry providerId projectId) = true ∧
    isErr (ModProviderService.getProjectBySlug registry providerId slug) = true ∧
    isErr (ModProviderService.getCategories registry providerId) = true ∧
    isErr (ModProviderService.getTags registry providerId) = true ∧
    isErr (ModProviderService.getVersionDependencies registry providerId projectId versionId) = true ∧
    isErr (ModProviderService.downloadVersion registry providerId projectId versionId) = true ∧
    isErr (ModProviderService.downloadForInstallation registry providerId projectId versionId)
      = true := by
  cases hp : ModProviderRegistry.getProvider registry providerId with
  | none =>
    refine ⟨?_, ?_, ?_, ?_, ?_, ?_, ?_, ?_⟩ <;>
      simp [ModProviderService.search, ModProviderService.getProject,
        ModProviderService.getProjectBySlug, ModProviderService.getCategories,
        ModProviderService.getTags, ModProviderService.getVersionDependencies,
        ModProviderService.downloadVersion, ModProviderService.downloadForInstallation,
        hp, isErr]
  | some provider =>
    have hc := h provider hp
    refine ⟨?_, ?_, ?_, ?_, ?_, ?_, ?_, ?_⟩ <;>
      simp [ModProviderService.search, ModProviderService.getProject,
        ModProviderService.getProjectBySlug, ModProviderService.getCategories,
        ModProviderService.getTags, ModProviderService.getVersionDependencies,
        ModProviderService.downloadVersion, ModProviderService.downloadForInstallation,
        hp, hc, isErr]

/-- A registered but unconfigured provider (for the C6 witness). -/
def c6Provider : IModProvider :=
  { id := "Y"
    displayName := "Y"
    requiresApiKey := true
    isConfigured := false
    searchProjects := fun _ => .ok (ModtaleProvider.unexpectedFormatResponse {})
    getProject := fun _ => .ok c2Project
    getProjectBySlug := none
    getCategories := fun _ => .ok []
    getTags := none
    getVersionDependencies := fun _ _ => .ok []
    downloadVersion := fun _ _ => .ok () }

theorem service_ops_raise_without_configured_provider_witness :
    isErr (ModProviderService.search [c6Provider] "Y" {}) = true ∧
    isErr (ModProviderService.getProject [c6Provider] "Y" "p1") = true ∧
    isErr (ModProviderService.getProjectBySlug [c6Provider] "Y" "p1") = true ∧
    isErr (ModProviderService.getCategories [c6Provider] "Y") = true ∧
    isErr (ModProviderService.getTags [c6Provider] "Y") = true ∧
    isErr (ModProviderService.getVersionDependencies [c6Provider] "Y" "p1" "v1") = true ∧
    isErr (ModProviderService.downloadVersion [c6Provider] "Y" "p1" "v1") = true ∧
    isErr (ModProviderService.downloadForInstallation [c6Provider] "Y" "p1" "v1") = true :=
  service_ops_raise_without_configured_provider [c6Provider] "Y" {} "p1" "p1" "v1"
    (by
      intro p hp
      simp [ModProviderRegistry.getProvider] at hp
      rw [← hp.2]
      rfl)

/-- An arbitrary typed mod record (target of the decode oracle where a
typed element is needed but never inspected). -/
def emptyCurseForgeMod : CurseForgeProvider.CurseForgeMod :=
  { id := 0, name := "", slug := "", summary := "", downloadCount := 0, isFeatured := false,
    categories := [], classId := none, authors := [], logoUrl := none, screenshots := [],
    latestFiles := [], latestFilesIndexes := [], dateCreated := "", dateModified := "",
    thumbsUpCount := 0, rating := none }

/-- C7 counterexample: the CurseForge adapter has no shape fallback in
`searchProjects` — on a successful reply whose body is the unrecognized
shape `{}` (no `data` array), `response.data.map` raises a TypeError
instead of returning an empty response, refuting the claim's "for every
adapter". -/
theorem curseforge_searchRespond_raises_on_unrecognized_shape :
    CurseForgeProvider.searchRespond [] (fun _ => emptyCurseForgeMod) {} (.jobj [])
      = .error "TypeError: response.data.map is not a function" ∧
    isErr (CurseForgeProvider.searchRespond [] (fun _ => emptyCurseForgeMod) {} (.jobj [])) = true :=
  ⟨rfl, rfl⟩

/-- C7 (amended): only the Modtale adapter degrades gracefully — when a
successful reply's body matches none of its recognized shapes (no
Spring `content` envelope, not a bare array, no `projects` key), its
`searchProjects` returns the logged-warning empty response carrying the
requested page/pageSize (defaults 1/50) and its provider id, rather than
raising; the CurseForge adapter raises on an unrecognized body. -/
theorem modtale_searchRespond_unrecognized_shape_yields_empty
    (params : UnifiedSearchParams) (response : JVal)
    (h1 : hasKey response "content" = false)
    (h2 : isArray response = false)
    (h3 : hasKey response "projects" = false) :
    ModtaleProvider.searchRespond params response
      = .ok { projects := [], total := .num 0, page := .num (orInt params.page 1),
              pageSize := .num (orInt params.pageSize 50), hasMore := false,
              providerId := "modtale" } := by
  unfold ModtaleProvider.searchRespond
  have ha : asArr response = none := by
    cases response <;> simp_all [asArr, isArray]
  simp [h1, h3, ha, ModtaleProvider.unexpectedFormatResponse]

theorem modtale_searchRespond_unrecognized_shape_witness :
    ModtaleProvider.searchRespond {} (.jstr "weird")
      = .ok { projects := [], total := .num 0, page := .num 1,
              pageSize := .num 50, hasMore := false, providerId := "modtale" } :=
  modtale_searchRespond_unrecognized_shape_yields_empty {} (.jstr "weird") rfl rfl rfl

/-- C4: for unified `page = 3, pageSize = 10` (arbitrary other filters),
Modtale's request carries the 0-indexed native page `page=2` with
`size=10` (offset 2·10 = 20) and CurseForge's request carries
`index=20` with `pageSize=10`; and each adapter's unified response
reports `page = 3` — Modtale decodes it back from the native 0-indexed
`number` the upstream reports (2 ↦ 2+1 = 3 on the Spring envelope),
CurseForge echoes the unified page of the request. -/
theorem pagination_round_trip
    (params : UnifiedSearchParams)
    (hpage : params.page = some 3) (hsize : params.pageSize = some 10)
    (gameId : Int) (m : List (Int × UnifiedClassification))
    (decodeMod : JVal → CurseForgeProvider.CurseForgeMod)
    (response : JVal) (content : List JVal)
    (htr : truthy response = true) (hto : typeofObject response = true)
    (hck : hasKey response "content" = true)
    (hc : jget response "content" = .jarr content)
    (hn : jget response "number" = .jnum 2)
    (cfbody : JVal) (ms : List JVal) (pfs : List (String × JVal))
    (hd : jget cfbody "data" = .jarr ms)
    (hpg : jget cfbody "pagination" = .jobj pfs) :
    queryParam (ModtaleProvider.buildSearchQuery params) "page" = some "2" ∧
    queryParam (ModtaleProvider.buildSearchQuery params) "size" = some "10" ∧
    queryParam (CurseForgeProvider.buildSearchQuery gameId m params) "index" = some "20" ∧
    queryParam (CurseForgeProvider.buildSearchQuery gameId m params) "pageSize" = some "10" ∧
    (∃ r, ModtaleProvider.searchRespond params response = .ok r ∧ r.page = .num 3) ∧
    (∃ r, CurseForgeProvider.searchRespond m decodeMod params cfbody = .ok r
        ∧ r.page = .num 3) := by
  obtain ⟨q, cl, cats, tg, gv, pg, ps, sb, so⟩ := params
  replace hpage : pg = some 3 := hpage
  replace hsize : ps = some 10 := hsize
  subst hpage
  subst hsize
  refine ⟨?_, ?_, ?_, ?_, ?_, ?_⟩
  · simp only [ModtaleProvider.buildSearchQuery]
    repeat' split
    all_goals rfl
  · simp only [ModtaleProvider.buildSearchQuery]
    repeat' split
    all_goals rfl
  · simp only [CurseForgeProvider.buildSearchQuery]
    repeat' split
    all_goals rfl
  · simp only [CurseForgeProvider.buildSearchQuery]
    repeat' split
    all_goals rfl
  · refine ⟨{ projects := content.map ModtaleProvider.transformProject,
              total := jsToNum (jsOr (jget response "totalElements") (.jnum content.length)),
              page := (jsToNum (jsOr (jget response "number") (.jnum 0))).add (.num 1),
              pageSize := jsToNum (jsOr (jget response "size") (jsOr (optIntJ (some 10)) (.jnum 50))),
              hasMore := !truthy (jget response "last"),
              providerId := "modtale" }, ?_, ?_⟩
    · unfold ModtaleProvider.searchRespond
      simp [htr, hto, hck, hc]
    · show ((jsToNum (jsOr (jget response "number") (.jnum 0))).add (.num 1)) = .num 3
      rw [hn]
      rfl
  · refine ⟨{ projects := ms.map (fun j => CurseForgeProvider.transformMod m (decodeMod j)),
              total := jvalRaw (jget (.jobj pfs) "totalCount"),
              page := .num (coalesce (some 3) 1),
              pageSize := .num (min (coalesce (some 10) 50) 50),
              hasMore := ((jvalRaw (jget (.jobj pfs) "index")).add
                (jvalRaw (jget (.jobj pfs) "resultCount"))).ltb
                  (jvalRaw (jget (.jobj pfs) "totalCount")),
              providerId := "curseforge" }, ?_, ?_⟩
    · unfold CurseForgeProvider.searchRespond
      simp [hd, hpg]
    · rfl

/-- The search parameters of the C4 witness. -/
def c4Params : UnifiedSearchParams := { page := some 3, pageSize := some 10 }

/-- A Spring-envelope Modtale reply reporting native 0-indexed page 2. -/
def c4ModtaleResponse : JVal :=
  .jobj [("content", .jarr []), ("number", .jnum 2)]

/-- The pagination object of the C4 CurseForge reply. -/
def c4Pagination : List (String × JVal) :=
  [("index", .jnum 20), ("resultCount", .jnum 0), ("totalCount", .jnum 0)]

/-- A CurseForge reply body with the expected data/pagination envelope. -/
def c4CfBody : JVal :=
  .jobj [("data", .jarr []), ("pagination", .jobj c4Pagination)]

theorem pagination_round_trip_witness :
    queryParam (ModtaleProvider.buildSearchQuery c4Params) "page" = some "2" ∧
    queryParam (ModtaleProvider.buildSearchQuery c4Params) "size" = some "10" ∧
    queryParam (CurseForgeProvider.buildSearchQuery 70216 [] c4Params) "index" = some "20" ∧
    queryParam (CurseForgeProvider.buildSearchQuery 70216 [] c4Params) "pageSize" = some "10" ∧
    (∃ r, ModtaleProvider.searchRespond c4Params c4ModtaleResponse = .ok r ∧ r.page = .num 3) ∧
    (∃ r, CurseForgeProvider.searchRespond [] (fun _ => emptyCurseForgeMod) c4Params c4CfBody
        = .ok r ∧ r.page = .num 3) :=
  pagination_round_trip c4Params rfl rfl 70216 [] (fun _ => emptyCurseForgeMod)
    c4ModtaleResponse [] rfl rfl rfl rfl rfl c4CfBody [] c4Pagination rfl rfl

/-- The C3 failing input: a Modtale project payload whose upstream
classification is the unrecognized (truthy) string "SHADER". -/
def c3FailingInput : JVal := .jobj [("classification", .jstr "SHADER")]

/-- C3: the claim holds for the CurseForge adapter (its classification
map only ever holds the five enumeration members, and lookups default to
PLUGIN), but the Modtale transform applies `(project.classification as
UnifiedClassification) || 'PLUGIN'` — an unchecked cast whose fallback
only fires on falsy values — so the unrecognized truthy value "SHADER"
passes through unchanged, escaping the closed enumeration that types.ts
declares for the field. -/
theorem modtale_classification_escapes_enum :
    (ModtaleProvider.transformProject c3FailingInput).classification = .jstr "SHADER" ∧
    classificationInEnum (ModtaleProvider.transformProject c3FailingInput).classification = false ∧
    ∀ (m : List (Int × UnifiedClassification)) (mod : CurseForgeProvider.CurseForgeMod),
      classificationInEnum (CurseForgeProvider.transformMod m mod).classification = true := by
  refine ⟨rfl, rfl, ?_⟩
  intro m mod
  have hc : (CurseForgeProvider.transformMod m mod).classification
      = (CurseForgeProvider.getClassification m mod.classId).toJVal := rfl
  rw [hc]
  cases CurseForgeProvider.getClassification m mod.classId <;> rfl
